import Mathlib

/-!
Verification of the dexscreener monitor bot (app.py, db.py, worker.py).

Shallow embedding conventions:
* Python floats (prices, thresholds, percentages) are modelled as exact
  rationals (`ℚ`); unix times as `ℕ`; Telegram chat ids as `ℤ`.
* The SQL tables of db.py are modelled as Lean lists of row structures, and
  each SQL statement as a pure function on those lists.
* The python-telegram-bot job queue is modelled as a list of named jobs; the
  `schedule_removal` / `run_repeating` calls of a handler become a filter
  followed by an append.
* A tick of `monitor_job` is a pure function of the fetch outcome: the
  surrounding `try/except` makes the adapter's three outcomes (exception,
  empty pair list, pair without `priceUsd`) exhaustive, so no exception
  escapes and totality of the Lean function models that.
-/

unseal Rat.mul Rat.inv Rat.add Rat.sub

namespace Dex

/-- One row of the `monitors` table (db.py, 001_init.sql). `updated_at`,
`prev_price_at` and unix times are natural numbers. -/
structure MonitorRow where
  id : ℤ
  chat_id : ℤ
  chain_id : String
  token_address : String
  threshold_pct : ℚ
  is_active : Bool
  prev_price_usd : Option ℚ
  prev_price_at : Option ℕ
  updated_at : ℕ
deriving DecidableEq, Repr

/-- One row of the `prices` table. -/
structure PriceRow where
  chain_id : String
  token_address : String
  ts : ℕ
  price_usd : ℚ
deriving DecidableEq, Repr

/-- One row of the `tokens` table; `symbol` is nullable. -/
structure TokenRow where
  chain_id : String
  token_address : String
  symbol : Option String
deriving DecidableEq, Repr

/-- The conflict target of db.py `upsert_monitor` / `deactivate_monitor`:
an active row matching the subscription identity (chat, chain, token). -/
def matchesActive (chat : ℤ) (chain token : String) (r : MonitorRow) : Bool :=
  r.is_active && decide (r.chat_id = chat) && decide (r.chain_id = chain) &&
    decide (r.token_address = token)

/-- Two monitor rows carry the same subscription identity. -/
def sameIdentity (r s : MonitorRow) : Prop :=
  r.chat_id = s.chat_id ∧ r.chain_id = s.chain_id ∧ r.token_address = s.token_address

instance (r s : MonitorRow) : Decidable (sameIdentity r s) := by
  unfold sameIdentity; infer_instance

/-- Spec §3 invariant: at most one *active* subscription row per identity. -/
def activeUnique (db : List MonitorRow) : Prop :=
  db.Pairwise fun r s => r.is_active = true → s.is_active = true → ¬ sameIdentity r s

/-- Modelled from the spec: the partial unique index of the missing
`001_init.sql` ("an exclusion-style uniqueness on (chat_id, chain_id,
token_address) restricted to active rows") gives db.py `upsert_monitor`'s
`ON CONFLICT ... WHERE monitors.is_active DO UPDATE` its semantics: when an
active row with the identity exists, only `threshold_pct` and `updated_at`
of that row are updated and its id is returned; otherwise a fresh active row
is inserted with null prev price fields. -/
def upsert_monitor (db : List MonitorRow) (freshId : ℤ) (chat : ℤ)
    (chain token : String) (thr : ℚ) (now : ℕ) : List MonitorRow × ℤ :=
  match db.find? (matchesActive chat chain token) with
  | some r =>
      (db.map fun s =>
        if matchesActive chat chain token s then
          { s with threshold_pct := thr, updated_at := now } else s, r.id)
  | none =>
      (db ++ [{ id := freshId, chat_id := chat, chain_id := chain,
                token_address := token, threshold_pct := thr, is_active := true,
                prev_price_usd := none, prev_price_at := none,
                updated_at := now }], freshId)

/-- db.py `deactivate_monitor`: flips `is_active` of the matching active row,
returning its id, or 0 when none matched (`scalar_one_or_none() or 0`). -/
def deactivate_monitor (db : List MonitorRow) (chat : ℤ) (chain token : String)
    (now : ℕ) : List MonitorRow × ℤ :=
  (db.map fun r =>
     if matchesActive chat chain token r then
       { r with is_active := false, updated_at := now } else r,
   match db.find? (matchesActive chat chain token) with
   | some r => r.id
   | none => 0)

/-- db.py `active_monitors`: `SELECT ... FROM monitors WHERE is_active = TRUE`. -/
def active_monitors (db : List MonitorRow) : List MonitorRow :=
  db.filter fun r => r.is_active

/-- Key of the `prices` table unique constraint (chain_id, token_address, ts). -/
def priceKey (c a : String) (t : ℕ) (r : PriceRow) : Bool :=
  decide (r.chain_id = c) && decide (r.token_address = a) && decide (r.ts = t)

/-- Modelled from the spec: the unique index on (chain_id, token_address, ts)
of the missing `001_init.sql` gives db.py `store_price`'s
`ON CONFLICT ... DO NOTHING` its semantics: insert unless the key exists. -/
def store_price (db : List PriceRow) (c a : String) (t : ℕ) (p : ℚ) :
    List PriceRow :=
  if db.any (priceKey c a t) then db
  else db ++ [{ chain_id := c, token_address := a, ts := t, price_usd := p }]

/-- Number of price rows holding a given key. -/
def priceCount (db : List PriceRow) (c a : String) (t : ℕ) : ℕ :=
  (db.filter (priceKey c a t)).length

/-- db.py `update_monitor_prev`: set prev price/at of the row with the id. -/
def update_monitor_prev (db : List MonitorRow) (mid : ℤ) (p : ℚ) (t now : ℕ) :
    List MonitorRow :=
  db.map fun r =>
    if r.id = mid then
      { r with prev_price_usd := some p, prev_price_at := some t,
               updated_at := now } else r

/-- Key check of the `tokens` table. -/
def tokenKey (c a : String) (r : TokenRow) : Bool :=
  decide (r.chain_id = c) && decide (r.token_address = a)

/-- db.py `ensure_token`: insert, or on key conflict set
`symbol = COALESCE(EXCLUDED.symbol, tokens.symbol)`. -/
def ensure_token (db : List TokenRow) (c a : String) (s : Option String) :
    List TokenRow :=
  if db.any (tokenKey c a) then
    db.map fun r =>
      if tokenKey c a r then
        { r with symbol := match s with | some v => some v | none => r.symbol }
      else r
  else db ++ [{ chain_id := c, token_address := a, symbol := s }]

/-- Floor of a rational, written so the kernel can evaluate it. -/
def ratFloor (x : ℚ) : ℤ := Int.fdiv x.num x.den

/-- Rounding ties to even, as CPython `round` does on the exact value;
floats are modelled as exact rationals. -/
def roundHalfEven (x : ℚ) : ℤ :=
  if x - ratFloor x < 1/2 then ratFloor x
  else if 1/2 < x - ratFloor x then ratFloor x + 1
  else if ratFloor x % 2 = 0 then ratFloor x else ratFloor x + 1

/-- Python `round(x, 2)` on the exact rational value. -/
def round2 (x : ℚ) : ℚ := (roundHalfEven (x * 100) : ℚ) / 100

/-- The divide-by-zero guard of app.py line 100: `prev_price or 1e-9`. -/
def eps : ℚ := 1 / 1000000000

/-- app.py line 100: `round((price_usd_new - prev_price) / (prev_price or 1e-9) * 100, 2)`. -/
def pct_change (prev priceNew : ℚ) : ℚ :=
  round2 ((priceNew - prev) / (if prev = 0 then eps else prev) * 100)

/-- app.py line 95: `(now_s // BUCKET_SECS) * BUCKET_SECS`, the bucketed
timestamp (kept as a unix second count rather than a datetime). -/
def ts_bucket (bucketSecs now : ℕ) : ℕ := now / bucketSecs * bucketSecs

/-- The `data` dict attached to a monitor job (app.py lines 184-191). -/
structure JobData where
  chat_id : ℤ
  token_address : String
  chain_id : String
  pct_chng_threshold : ℚ
  prev_price : Option ℚ
  monitor_id : Option ℤ
deriving DecidableEq, Repr

/-- One entry of the python-telegram-bot job queue. -/
structure Job where
  name : String
  data : JobData
deriving DecidableEq, Repr

/-- One trading pair as consumed by `monitor_job`: the `baseToken.symbol`
field when present, and the parsed `priceUsd` when present. -/
structure Pair where
  symbol : Option String
  priceUsd : Option ℚ
deriving DecidableEq, Repr

/-- Outcome of `monitor_api.get_token_pairs` as seen from inside the tick's
`try`: either some exception was raised (network, HTTP status, JSON, parse),
or a list of pairs was returned. -/
inductive FetchResult where
  | failure (err : String)
  | pairs (ps : List Pair)
deriving DecidableEq, Repr

/-- The chat messages `monitor_job` can send. -/
inductive Msg where
  | noPairs (chat : ℤ) (token : String)
  | noPrice (chat : ℤ) (symbol : String)
  | firstObs (chat : ℤ) (symbol : String) (ts : ℕ) (price : ℚ)
  | alert (chat : ℤ) (symbol : String) (pct : ℚ) (ts : ℕ) (price : ℚ)
  | stoppedErr (chat : ℤ) (token : String) (err : String)
deriving DecidableEq, Repr

/-- Everything one tick of `monitor_job` does: messages sent, whether
`schedule_removal` was called, the updated in-memory `prev_price`, the
bucketed timestamp (when one was computed) and the three store states. -/
structure TickResult where
  messages : List Msg
  removed : Bool
  newPrev : Option ℚ
  tsBucket : Option ℕ
  prices : List PriceRow
  monitors : List MonitorRow
  tokens : List TokenRow
deriving DecidableEq, Repr

/-- app.py `monitor_job`, as a pure function of the fetch outcome. The
`try/except Exception` wrapping the whole body is modelled by the `failure`
branch; the notifier (`bot.send_message`) is an external collaborator and
always succeeds in the model. -/
def monitor_job (bucketSecs now : ℕ) (data : JobData) (fetch : FetchResult)
    (prices : List PriceRow) (monitors : List MonitorRow)
    (tokens : List TokenRow) : TickResult :=
  match fetch with
  | .failure e =>
      { messages := [.stoppedErr data.chat_id data.token_address e],
        removed := true, newPrev := data.prev_price, tsBucket := none,
        prices := prices, monitors := monitors, tokens := tokens }
  | .pairs [] =>
      { messages := [.noPairs data.chat_id data.token_address],
        removed := true, newPrev := data.prev_price, tsBucket := none,
        prices := prices, monitors := monitors, tokens := tokens }
  | .pairs (pair :: _) =>
      let symbol := pair.symbol.getD ("?")
      match pair.priceUsd with
      | none =>
          { messages := [.noPrice data.chat_id symbol],
            removed := true, newPrev := data.prev_price, tsBucket := none,
            prices := prices, monitors := monitors, tokens := tokens }
      | some priceNew =>
          let tsb := ts_bucket bucketSecs now
          let msgs :=
            match data.prev_price with
            | none => [Msg.firstObs data.chat_id symbol tsb priceNew]
            | some prev =>
                let pct := pct_change prev priceNew
                if data.pct_chng_threshold ≤ |pct| then
                  [Msg.alert data.chat_id symbol pct tsb priceNew]
                else []
          { messages := msgs, removed := false, newPrev := some priceNew,
            tsBucket := some tsb,
            prices := store_price prices data.chain_id data.token_address tsb
              priceNew,
            monitors :=
              match data.monitor_id with
              | some mid => update_monitor_prev monitors mid priceNew tsb now
              | none => monitors,
            tokens :=
              if symbol = "" ∨ symbol = "?" then tokens
              else ensure_token tokens data.chain_id data.token_address
                (some symbol) }

/-- Python `str.strip()` (whitespace on both ends), over the char list. -/
def pyStrip (s : String) : String :=
  ⟨((s.data.dropWhile Char.isWhitespace).reverse.dropWhile
      Char.isWhitespace).reverse⟩

/-- Python `str.lower()`, over the char list. -/
def pyLower (s : String) : String := ⟨s.data.map Char.toLower⟩

/-- Value of a decimal digit string. -/
def digitsToNat (l : List Char) : ℕ :=
  l.foldl (fun n c => n * 10 + (c.toNat - 48)) 0

/-- CPython `float(str)` restricted to plain decimal literals (optional
sign, digits, optional fraction part); exponent, underscore and inf/nan
forms — never exercised by the claims — are treated as errors. `none`
models the `ValueError` that `float` raises on a malformed string. -/
def pyFloat? (s : String) : Option ℚ :=
  let t := (pyStrip s).data
  let su : ℚ × List Char :=
    match t with
    | '-' :: rest => (-1, rest)
    | '+' :: rest => (1, rest)
    | _ => (1, t)
  let ip := su.2.takeWhile Char.isDigit
  match su.2.dropWhile Char.isDigit with
  | [] => if ip.isEmpty then none else some (su.1 * digitsToNat ip)
  | '.' :: fp =>
      if fp.all Char.isDigit && !(ip.isEmpty && fp.isEmpty) then
        some (su.1 *
          ((digitsToNat ip : ℚ) + (digitsToNat fp : ℚ) / (10 : ℚ) ^ fp.length))
      else none
  | _ => none

/-- app.py `_parse_hours`: strip and lowercase, a trailing `h` means hours,
a trailing `m` means minutes (divided by 60), a bare number means hours;
`s[:-1] or "0"` turns a lone suffix into 0. `none` models `ValueError`. -/
def parse_hours (s : String) : Option ℚ :=
  let t := pyLower (pyStrip s)
  if t.data.getLast? = some 'h' then
    pyFloat? (if t.data.dropLast.isEmpty then ⟨['0']⟩ else ⟨t.data.dropLast⟩)
  else if t.data.getLast? = some 'm' then
    (pyFloat?
      (if t.data.dropLast.isEmpty then ⟨['0']⟩ else ⟨t.data.dropLast⟩)).map
      (· / 60)
  else pyFloat? t

/-- app.py line 175: `f"monitor-\x7bchat_id\x7d-\x7btoken_address\x7d"` —
note the chain id is not part of the job name. -/
def jobName (chat : ℤ) (token : String) : String :=
  "monitor-" ++ toString chat ++ "-" ++ token

/-- python-telegram-bot `job_queue.get_jobs_by_name`. -/
def get_jobs_by_name (q : List Job) (n : String) : List Job :=
  q.filter fun j => decide (j.name = n)

/-- Threshold resolution of the `/monitor` handler (app.py lines 154-157):
`float(args[1])` when a second argument exists, with `ValueError` falling
back to 3.0. -/
def argThreshold (rest : List String) : ℚ :=
  match rest with
  | a1 :: _ => (pyFloat? a1).getD 3
  | [] => 3

/-- Chain resolution of the `/monitor` handler (app.py line 158):
`args[2]` when present, else "solana". -/
def argChain (rest : List String) : String :=
  match rest with
  | _ :: a2 :: _ => a2
  | _ => "solana"

/-- Chain resolution of the `/stop` handler (app.py line 203):
`args[1]` when present, else "solana". -/
def stopChain (rest : List String) : String :=
  match rest with
  | c :: _ => c
  | [] => "solana"

/-- Reply sent by the `/monitor` handler. -/
inductive MonitorReply where
  | usage
  | started (token chain : String) (thr : ℚ)
deriving DecidableEq, Repr

/-- Result state of the `/monitor` handler. -/
structure MonitorCmdResult where
  monitors : List MonitorRow
  tokens : List TokenRow
  queue : List Job
  reply : MonitorReply
deriving DecidableEq, Repr

/-- app.py `monitor` handler: parse args (malformed threshold falls back to
3.0, default chain "solana"), upsert the token and the monitor row, then
remove every job with the name `monitor-chat-token` and schedule a fresh one
with `prev_price = None`. The `ensure_user_chat` bookkeeping write
(tg_users/tg_chats) is irrelevant to every claim and not modelled. -/
def monitor (args : List String) (chat : ℤ) (monitors : List MonitorRow)
    (tokens : List TokenRow) (freshId : ℤ) (now : ℕ) (queue : List Job) :
    MonitorCmdResult :=
  match args with
  | [] => ⟨monitors, tokens, queue, .usage⟩
  | token_address :: rest =>
      let threshold := argThreshold rest
      let chain_id := argChain rest
      let tokens2 := ensure_token tokens chain_id token_address none
      let um := upsert_monitor monitors freshId chat chain_id token_address
        threshold now
      let name := jobName chat token_address
      let queue2 := (queue.filter fun j => decide ¬(j.name = name)) ++
        [⟨name, ⟨chat, token_address, chain_id, threshold, none, some um.2⟩⟩]
      ⟨um.1, tokens2, queue2, .started token_address chain_id threshold⟩

/-- Reply sent by the `/stop` handler. -/
inductive StopReply where
  | usage
  | notActive (token : String)
  | stopped (token : String)
deriving DecidableEq, Repr

/-- app.py `stop` handler: deactivate the row for (chat, chain, token) in
the store, then look up in-memory jobs by the chain-less name
`monitor-chat-token`; if none, reply "No active monitor" and remove
nothing, else remove them all and reply "Stopped". -/
def stop (args : List String) (chat : ℤ) (monitors : List MonitorRow)
    (now : ℕ) (queue : List Job) : List MonitorRow × List Job × StopReply :=
  match args with
  | [] => (monitors, queue, .usage)
  | token :: rest =>
      let chain := stopChain rest
      let monitors2 := (deactivate_monitor monitors chat chain token now).1
      let name := jobName chat token
      if get_jobs_by_name queue name = [] then
        (monitors2, queue, .notActive token)
      else
        (monitors2, queue.filter fun j => decide ¬(j.name = name),
         .stopped token)

/-- Outcome of the argument-resolution part of the `/chart` handler (the
query/plot part is out of the spec's scope). `valueError` models the
uncaught `ValueError` escaping the handler. -/
inductive ChartOutcome where
  | usage
  | ok (hours : ℚ) (chain : String)
  | valueError (badArg : String)
deriving DecidableEq, Repr

/-- app.py `chart` handler, argument resolution (lines 235-247): defaults
24.0 hours / "solana"; a second argument is tried as a duration and on
`ValueError` reinterpreted as the chain, in which case a third argument is
parsed as a duration with no surrounding handler for its `ValueError`. -/
def chart (args : List String) : ChartOutcome :=
  match args with
  | [] => .usage
  | _token :: rest =>
      match rest with
      | [] => .ok 24 ("solana")
      | a1 :: rest2 =>
          match parse_hours a1 with
          | some h =>
              .ok h (match rest2 with | c :: _ => c | [] => "solana")
          | none =>
              match rest2 with
              | [] => .ok 24 a1
              | a2 :: _ =>
                  match parse_hours a2 with
                  | some h => .ok h a1
                  | none => .valueError a2

/-- The job `data` dict built from a monitor row during startup rescheduling
(app.py lines 325-332, worker.py lines 48-55). -/
def seedData (m : MonitorRow) : JobData :=
  ⟨m.chat_id, m.token_address, m.chain_id, m.threshold_pct,
   m.prev_price_usd, some m.id⟩

/-- The job scheduled for a monitor row during startup rescheduling. -/
def seedJob (m : MonitorRow) : Job :=
  ⟨jobName m.chat_id m.token_address, seedData m⟩

/-- One iteration of the startup rescheduling loop: remove the jobs sharing
the row's name, then schedule the seeded job. -/
def rebuildStep (q : List Job) (m : MonitorRow) : List Job :=
  (q.filter fun j => decide ¬(j.name = jobName m.chat_id m.token_address)) ++
    [seedJob m]

/-- app.py `on_startup` lines 313-334 (identical in worker.py `main`): the
rescheduling loop over the active monitor rows. -/
def rebuild (q : List Job) (mons : List MonitorRow) : List Job :=
  mons.foldl rebuildStep q

/-- Sample job data used to instantiate theorems. -/
def exData (prev : Option ℚ) (thr : ℚ) : JobData :=
  ⟨1, "T", "solana", thr, prev, some 1⟩

/-- Sample pair with symbol S used to instantiate theorems. -/
def exPair (p : ℚ) : Pair := ⟨some ("S"), some p⟩

lemma store_price_present (db : List PriceRow) (c a : String) (t : ℕ) (p : ℚ)
    (h : db.any (priceKey c a t) = true) : store_price db c a t p = db := by
  simp [store_price, h]

lemma priceCount_append (l1 l2 : List PriceRow) (c a : String) (t : ℕ) :
    priceCount (l1 ++ l2) c a t = priceCount l1 c a t + priceCount l2 c a t := by
  simp [priceCount, List.filter_append]

lemma priceCount_zero (db : List PriceRow) (c a : String) (t : ℕ)
    (h : db.any (priceKey c a t) = false) : priceCount db c a t = 0 := by
  simp only [priceCount, List.length_eq_zero]
  refine List.filter_eq_nil_iff.mpr fun r hr => ?_
  have := (List.any_eq_false).mp h r hr
  simpa using this

lemma priceCount_pos (db : List PriceRow) (c a : String) (t : ℕ)
    (h : db.any (priceKey c a t) = true) : 1 ≤ priceCount db c a t := by
  obtain ⟨r, hr, hk⟩ := List.any_eq_true.mp h
  have : r ∈ db.filter (priceKey c a t) := List.mem_filter.mpr ⟨hr, hk⟩
  have := List.length_pos.mpr (List.ne_nil_of_mem this)
  simpa [priceCount] using this

/-- C9: Price Store insert is idempotent — inserting the same
(chain_id, token_address, bucketed ts, price) twice leaves exactly one row,
and a second insert for an existing (chain_id, token_address, ts) key
changes nothing (ignore-on-conflict); key uniqueness is preserved. -/
theorem store_price_idempotent (db : List PriceRow) (c a : String) (t : ℕ)
    (p : ℚ) :
    store_price (store_price db c a t p) c a t p = store_price db c a t p ∧
    (db.any (priceKey c a t) = true → store_price db c a t p = db) ∧
    ((∀ c2 a2 t2, priceCount db c2 a2 t2 ≤ 1) →
      priceCount (store_price db c a t p) c a t = 1 ∧
      ∀ c2 a2 t2, priceCount (store_price db c a t p) c2 a2 t2 ≤ 1) := by
  by_cases h : db.any (priceKey c a t) = true
  · refine ⟨by simp [store_price, h], fun _ => by simp [store_price, h],
      fun hu => ?_⟩
    have h1 := priceCount_pos db c a t h
    have h2 := hu c a t
    simp [store_price, h]
    exact ⟨le_antisymm h2 h1, hu⟩
  · have h0 : db.any (priceKey c a t) = false := by simpa using h
    have hrow : priceKey c a t
        { chain_id := c, token_address := a, ts := t, price_usd := p } = true := by
      simp [priceKey]
    have hstep : store_price db c a t p =
        db ++ [{ chain_id := c, token_address := a, ts := t, price_usd := p }] := by
      simp [store_price, h0]
    have hany2 : (store_price db c a t p).any (priceKey c a t) = true := by
      rw [hstep]
      exact List.any_eq_true.mpr ⟨_, List.mem_append_right _ (by simp), hrow⟩
    refine ⟨store_price_present _ _ _ _ _ hany2, fun hc => absurd hc h,
      fun hu => ?_⟩
    have hz := priceCount_zero db c a t h0
    constructor
    · rw [hstep, priceCount_append, hz]
      simp [priceCount, hrow]
    · intro c2 a2 t2
      rw [hstep, priceCount_append]
      by_cases hk : priceKey c2 a2 t2
          { chain_id := c, token_address := a, ts := t, price_usd := p } = true
      · have hkey : (c = c2 ∧ a = a2) ∧ t = t2 := by
          simpa [priceKey] using hk
        obtain ⟨⟨hc2, ha2⟩, ht2⟩ := hkey
        subst hc2; subst ha2; subst ht2
        rw [hz]
        simp [priceCount, hrow]
      · have : priceCount
            [{ chain_id := c, token_address := a, ts := t, price_usd := p }]
            c2 a2 t2 = 0 := by
          simp only [Bool.not_eq_true] at hk
          simp [priceCount, hk]
        rw [this]
        simpa using hu c2 a2 t2

/-- Witness for C9 at a concrete store. -/
theorem store_price_idempotent_witness :
    store_price (store_price [] ("solana") ("T") 10 5) ("solana") ("T") 10 5
      = store_price [] ("solana") ("T") 10 5 ∧
    priceCount (store_price [] ("solana") ("T") 10 5) ("solana") ("T") 10 = 1 :=
  ⟨(store_price_idempotent [] ("solana") ("T") 10 5).1,
   ((store_price_idempotent [] ("solana") ("T") 10 5).2.2
     (by intro c2 a2 t2; simp [priceCount])).1⟩

/-- C10: upserting a Token with `symbol = None` (as the subscribe path does)
never changes any stored row — in particular it never overwrites a non-null
symbol — and for any supplied symbol, a row's symbol either stays what it
was or becomes the supplied non-null symbol. -/
theorem ensure_token_none_frame (db : List TokenRow) (c a : String) :
    (db.any (tokenKey c a) = true → ensure_token db c a none = db) ∧
    (db.any (tokenKey c a) = false →
      ensure_token db c a none =
        db ++ [{ chain_id := c, token_address := a, symbol := none }]) ∧
    (∀ s : Option String, ∀ r ∈ db,
      ∃ r2 ∈ ensure_token db c a s,
        r2.chain_id = r.chain_id ∧ r2.token_address = r.token_address ∧
        (r2.symbol = r.symbol ∨ (s ≠ none ∧ r2.symbol = s))) := by
  refine ⟨fun h => ?_, fun h => by simp [ensure_token, h], fun s r hr => ?_⟩
  · have hpt : ∀ x : TokenRow,
        (if tokenKey c a x then
          { x with symbol := match (none : Option String) with
                             | some v => some v
                             | none => x.symbol } else x) = x := by
      intro x
      by_cases hx : tokenKey c a x = true <;> simp [hx]
    simp only [ensure_token, h, if_true]
    calc (db.map fun x =>
            if tokenKey c a x then
              { x with symbol := match (none : Option String) with
                                 | some v => some v
                                 | none => x.symbol } else x)
        = db.map id := List.map_congr_left fun x _ => hpt x
      _ = db := List.map_id db
  · by_cases h : db.any (tokenKey c a) = true
    · simp only [ensure_token, h, if_true]
      refine ⟨_, List.mem_map_of_mem _ hr, ?_⟩
      by_cases hx : tokenKey c a r = true
      · cases s with
        | none => simp [hx]
        | some v => simp [hx]
      · simp only [Bool.not_eq_true] at hx
        simp [hx]
    · have h0 : db.any (tokenKey c a) = false := by simpa using h
      simp only [ensure_token, h0, Bool.false_eq_true, if_false]
      exact ⟨r, List.mem_append_left _ hr, rfl, rfl, Or.inl rfl⟩

/-- Witness for C10 at a concrete token table. -/
theorem ensure_token_none_frame_witness :
    ensure_token [{ chain_id := "solana", token_address := "T",
                    symbol := some ("S") }] ("solana") ("T") none
      = [{ chain_id := "solana", token_address := "T",
           symbol := some ("S") }] :=
  (ensure_token_none_frame
    [{ chain_id := "solana", token_address := "T", symbol := some ("S") }]
    ("solana") ("T")).1 (by decide)

/-- C3: in a tick's decision step, an unset `prev_price` produces exactly the
informational first-observation message; otherwise the alert message is sent
iff `|pct| ≥ threshold` where `pct = round((new - prev) / (prev or 1e-9) *
100, 2)`; with threshold 5 and prev 100, price 106 gives pct 6 and an alert
and price 104 gives pct 4 and no message. -/
theorem monitor_job_decision (B now : ℕ) (d : JobData) (pair : Pair)
    (rest : List Pair) (price : ℚ) (prices : List PriceRow)
    (mons : List MonitorRow) (toks : List TokenRow)
    (hp : pair.priceUsd = some price) :
    ((d.prev_price = none →
      (monitor_job B now d (.pairs (pair :: rest)) prices mons toks).messages
        = [Msg.firstObs d.chat_id (pair.symbol.getD ("?")) (ts_bucket B now)
            price]) ∧
     (∀ prev, d.prev_price = some prev →
       ((monitor_job B now d (.pairs (pair :: rest)) prices mons
           toks).messages
          = [Msg.alert d.chat_id (pair.symbol.getD ("?"))
              (pct_change prev price) (ts_bucket B now) price]
        ↔ d.pct_chng_threshold ≤ |pct_change prev price|) ∧
       ((monitor_job B now d (.pairs (pair :: rest)) prices mons
           toks).messages = []
        ↔ ¬ d.pct_chng_threshold ≤ |pct_change prev price|))) ∧
    pct_change 100 106 = 6 ∧ pct_change 100 104 = 4 ∧
    (monitor_job 5 0 (exData (some 100) 5) (.pairs [exPair 106]) [] []
        []).messages = [Msg.alert 1 ("S") 6 0 106] ∧
    (monitor_job 5 0 (exData (some 100) 5) (.pairs [exPair 104]) [] []
        []).messages = [] := by
  refine ⟨⟨fun hnone => by simp [monitor_job, hp, hnone],
    fun prev hprev => ?_⟩, by decide, by decide, by decide, by decide⟩
  by_cases hle : d.pct_chng_threshold ≤ |pct_change prev price|
  · simp [monitor_job, hp, hprev, hle]
  · simp [monitor_job, hp, hprev, hle]

/-- Witness for C3 with a concrete priced pair and fresh task state. -/
theorem monitor_job_decision_witness :
    (monitor_job 5 0 (exData none 5) (.pairs [exPair 106]) [] [] []).messages
      = [Msg.firstObs 1 ("S") 0 106] :=
  (monitor_job_decision 5 0 (exData none 5) (exPair 106) [] 106 [] [] []
    rfl).1.1 rfl

/-- C5: every fatal tick outcome — adapter exception, empty pair list, or a
best pair without a price — sends exactly one notification to the chat and
calls `schedule_removal` (the task is permanently descheduled, never
retried); a priced pair never deschedules; totality of `monitor_job` models
that no exception escapes the tick. -/
theorem monitor_job_fatal (B now : ℕ) (d : JobData) (prices : List PriceRow)
    (mons : List MonitorRow) (toks : List TokenRow) :
    (∀ e, (monitor_job B now d (.failure e) prices mons toks).removed = true ∧
      (monitor_job B now d (.failure e) prices mons toks).messages
        = [Msg.stoppedErr d.chat_id d.token_address e]) ∧
    ((monitor_job B now d (.pairs []) prices mons toks).removed = true ∧
      (monitor_job B now d (.pairs []) prices mons toks).messages
        = [Msg.noPairs d.chat_id d.token_address]) ∧
    (∀ pair rest, pair.priceUsd = none →
      (monitor_job B now d (.pairs (pair :: rest)) prices mons toks).removed
        = true ∧
      (monitor_job B now d (.pairs (pair :: rest)) prices mons toks).messages
        = [Msg.noPrice d.chat_id (pair.symbol.getD ("?"))]) ∧
    (∀ pair rest price, pair.priceUsd = some price →
      (monitor_job B now d (.pairs (pair :: rest)) prices mons toks).removed
        = false) := by
  refine ⟨fun e => by simp [monitor_job], by simp [monitor_job],
    fun pair rest hn => by simp [monitor_job, hn],
    fun pair rest price hp => by simp [monitor_job, hp]⟩

/-- Witness for C5 at the three concrete fatal outcomes. -/
theorem monitor_job_fatal_witness :
    (monitor_job 5 0 (exData none 3) (.failure ("boom")) [] [] []).removed
      = true ∧
    (monitor_job 5 0 (exData none 3) (.pairs []) [] [] []).removed = true ∧
    (monitor_job 5 0 (exData none 3) (.pairs [⟨some ("S"), none⟩]) [] []
       []).removed = true :=
  ⟨((monitor_job_fatal 5 0 (exData none 3) [] [] []).1 ("boom")).1,
   (monitor_job_fatal 5 0 (exData none 3) [] [] []).2.1.1,
   ((monitor_job_fatal 5 0 (exData none 3) [] [] []).2.2.1 ⟨some ("S"), none⟩
     [] rfl).1⟩

/-- C8: the bucketed timestamp computed by two ticks whose wall-clock times
fall in the same bucket window is identical and equals
`floor(now / bucket_seconds) * bucket_seconds`, regardless of which
subscription's job data triggered each tick. -/
theorem ts_bucket_consistent (B t1 t2 : ℕ) (d1 d2 : JobData) (p1 p2 : Pair)
    (r1 r2 : List Pair) (v1 v2 : ℚ) (pr1 pr2 : List PriceRow)
    (ms1 ms2 : List MonitorRow) (tk1 tk2 : List TokenRow)
    (hp1 : p1.priceUsd = some v1) (hp2 : p2.priceUsd = some v2)
    (hb : t1 / B = t2 / B) :
    (monitor_job B t1 d1 (.pairs (p1 :: r1)) pr1 ms1 tk1).tsBucket
      = some (ts_bucket B t1) ∧
    (monitor_job B t2 d2 (.pairs (p2 :: r2)) pr2 ms2 tk2).tsBucket
      = (monitor_job B t1 d1 (.pairs (p1 :: r1)) pr1 ms1 tk1).tsBucket := by
  constructor
  · simp [monitor_job, hp1]
  · simp [monitor_job, hp1, hp2, ts_bucket, hb]

/-- Witness for C8: seconds 101 and 104 share the 5-second bucket 100. -/
theorem ts_bucket_consistent_witness :
    (monitor_job 5 104 (exData none 7) (.pairs [exPair 2]) [] [] []).tsBucket
      = (monitor_job 5 101 (exData (some 1) 3) (.pairs [exPair 9]) [] []
          []).tsBucket :=
  (ts_bucket_consistent 5 101 104 (exData (some 1) 3) (exData none 7)
    (exPair 9) (exPair 2) [] [] 9 2 [] [] [] [] [] [] rfl rfl
    (by decide)).2

lemma upsert_update_fields (chat : ℤ) (chain token : String) (thr : ℚ)
    (now : ℕ) (x : MonitorRow) :
    ((if matchesActive chat chain token x then
        { x with threshold_pct := thr, updated_at := now } else x).is_active
        = x.is_active) ∧
    ((if matchesActive chat chain token x then
        { x with threshold_pct := thr, updated_at := now } else x).chat_id
        = x.chat_id) ∧
    ((if matchesActive chat chain token x then
        { x with threshold_pct := thr, updated_at := now } else x).chain_id
        = x.chain_id) ∧
    ((if matchesActive chat chain token x then
        { x with threshold_pct := thr, updated_at := now }
      else x).token_address = x.token_address) := by
  by_cases h : matchesActive chat chain token x = true <;> simp [h]

/-- C4: `upsert_monitor` preserves the at-most-one-active-row-per-identity
invariant, and when an active row for the identity already exists it updates
that row's threshold_pct and updated_at in place — same row count, all
non-matching rows unchanged — never creating a second active row. -/
theorem upsert_monitor_no_duplicate (db : List MonitorRow) (freshId chat : ℤ)
    (chain token : String) (thr : ℚ) (now : ℕ) (hu : activeUnique db) :
    activeUnique (upsert_monitor db freshId chat chain token thr now).1 ∧
    ((∃ r ∈ db, matchesActive chat chain token r = true) →
      (upsert_monitor db freshId chat chain token thr now).1.length
        = db.length ∧
      ∀ s ∈ db,
        (matchesActive chat chain token s = true →
          { s with threshold_pct := thr, updated_at := now }
            ∈ (upsert_monitor db freshId chat chain token thr now).1) ∧
        (matchesActive chat chain token s = false →
          s ∈ (upsert_monitor db freshId chat chain token thr now).1)) := by
  cases hf : db.find? (matchesActive chat chain token) with
  | none =>
      constructor
      · have hnone := List.find?_eq_none.mp hf
        simp only [upsert_monitor, hf]
        rw [activeUnique, List.pairwise_append]
        refine ⟨hu, List.pairwise_singleton _ _, fun a ha b hb => ?_⟩
        intro hact _ hsame
        have hb1 := List.mem_singleton.mp hb
        have := hnone a ha
        rw [hb1] at hsame
        obtain ⟨h1, h2, h3⟩ := hsame
        simp [matchesActive, hact, h1, h2, h3] at this
      · rintro ⟨r, hr, hmr⟩
        exact absurd (List.find?_eq_none.mp hf r hr) (by simp [hmr])
  | some r =>
      constructor
      · simp only [upsert_monitor, hf]
        refine List.Pairwise.map _ (fun a b hab => ?_) hu
        obtain ⟨ha1, ha2, ha3, ha4⟩ :=
          upsert_update_fields chat chain token thr now a
        obtain ⟨hb1, hb2, hb3, hb4⟩ :=
          upsert_update_fields chat chain token thr now b
        rw [ha1, hb1]
        intro h1 h2 hsame
        rw [sameIdentity, ha2, ha3, ha4, hb2, hb3, hb4] at hsame
        exact hab h1 h2 hsame
      · intro _
        constructor
        · simp [upsert_monitor, hf]
        · intro s hs
          constructor
          · intro hm
            simp only [upsert_monitor, hf]
            have : { s with threshold_pct := thr, updated_at := now } =
                (fun x => if matchesActive chat chain token x then
                  { x with threshold_pct := thr, updated_at := now } else x)
                  s := by simp [hm]
            rw [this]
            exact List.mem_map_of_mem _ hs
          · intro hm
            simp only [upsert_monitor, hf]
            have : s = (fun x => if matchesActive chat chain token x then
                { x with threshold_pct := thr, updated_at := now } else x)
                s := by simp [hm]
            rw [this]
            exact List.mem_map_of_mem _ hs

/-- Witness for C4 at a one-row store holding an active subscription. -/
theorem upsert_monitor_no_duplicate_witness :
    activeUnique (upsert_monitor
      [{ id := 1, chat_id := 1, chain_id := "solana", token_address := "T",
         threshold_pct := 3, is_active := true, prev_price_usd := none,
         prev_price_at := none, updated_at := 0 }] 2 1 ("solana") ("T") 5
      7).1 ∧
    (upsert_monitor
      [{ id := 1, chat_id := 1, chain_id := "solana", token_address := "T",
         threshold_pct := 3, is_active := true, prev_price_usd := none,
         prev_price_at := none, updated_at := 0 }] 2 1 ("solana") ("T") 5
      7).1.length = 1 := by
  have h := upsert_monitor_no_duplicate
    [{ id := 1, chat_id := 1, chain_id := "solana", token_address := "T",
       threshold_pct := 3, is_active := true, prev_price_usd := none,
       prev_price_at := none, updated_at := 0 }] 2 1 ("solana") ("T") 5 7
    (List.pairwise_singleton _ _)
  exact ⟨h.1, (h.2 ⟨_, List.mem_singleton_self _, by decide⟩).1⟩

lemma no_firstObs_of_prev_some (B now : ℕ) (d : JobData) (p : ℚ)
    (hprev : d.prev_price = some p) (fetch : FetchResult)
    (prices : List PriceRow) (ms : List MonitorRow) (tk : List TokenRow) :
    ∀ c s t pr, Msg.firstObs c s t pr ∉
      (monitor_job B now d fetch prices ms tk).messages := by
  intro c s t pr
  cases fetch with
  | failure e => simp [monitor_job]
  | pairs ps =>
      cases ps with
      | nil => simp [monitor_job]
      | cons pair rest =>
          cases hpu : pair.priceUsd with
          | none => simp [monitor_job, hpu]
          | some v =>
              simp only [monitor_job, hpu, hprev]
              split <;> simp

lemma rebuild_distinct :
    ∀ (mons : List MonitorRow) (q : List Job),
      (∀ j ∈ q, ∀ m ∈ mons, j.name ≠ jobName m.chat_id m.token_address) →
      ((mons.map fun m => jobName m.chat_id m.token_address).Pairwise
        (· ≠ ·)) →
      rebuild q mons = q ++ mons.map seedJob
  | [], q, _, _ => by simp [rebuild]
  | m :: rest, q, hdisj, hpw => by
      rw [List.map_cons, List.pairwise_cons] at hpw
      obtain ⟨hhead, htail⟩ := hpw
      have hq : rebuildStep q m = q ++ [seedJob m] := by
        unfold rebuildStep
        congr 1
        apply List.filter_eq_self.mpr
        intro j hj
        simpa using hdisj j hj m (List.mem_cons_self _ _)
      have hdisj2 : ∀ j ∈ q ++ [seedJob m], ∀ m2 ∈ rest,
          j.name ≠ jobName m2.chat_id m2.token_address := by
        intro j hj m2 hm2
        rcases List.mem_append.mp hj with hjq | hjm
        · exact hdisj j hjq m2 (List.mem_cons_of_mem _ hm2)
        · rw [List.mem_singleton.mp hjm]
          exact hhead _ (List.mem_map_of_mem _ hm2)
      have : rebuild q (m :: rest) = rebuild (q ++ [seedJob m]) rest := by
        rw [rebuild, List.foldl_cons, hq]; rfl
      rw [this, rebuild_distinct rest (q ++ [seedJob m]) hdisj2 htail]
      simp

/-- C2 (amended): after the startup rebuild, provided the active rows have
pairwise-distinct job names — names derive from (chat_id, token_address)
only — exactly one Monitor Task runs per active row, each seeded with that
row's persisted prev_price, and a task whose persisted prev_price is
non-null can never emit a first-observation message on its next tick. -/
theorem rebuild_from_store (db : List MonitorRow)
    (hpw : ((active_monitors db).map fun m =>
        jobName m.chat_id m.token_address).Pairwise (· ≠ ·)) :
    rebuild [] (active_monitors db) = (active_monitors db).map seedJob ∧
    (rebuild [] (active_monitors db)).length
      = (active_monitors db).length ∧
    (∀ m ∈ active_monitors db,
      m.is_active = true ∧ seedJob m ∈ rebuild [] (active_monitors db) ∧
      (seedData m).prev_price = m.prev_price_usd) ∧
    (∀ m ∈ active_monitors db, ∀ p, m.prev_price_usd = some p →
      ∀ B now fetch prices ms tk c s t pr,
        Msg.firstObs c s t pr ∉
          (monitor_job B now (seedData m) fetch prices ms tk).messages) := by
  have heq : rebuild [] (active_monitors db)
      = (active_monitors db).map seedJob := by
    simpa using rebuild_distinct (active_monitors db) [] (by simp) hpw
  refine ⟨heq, by rw [heq, List.length_map], fun m hm => ?_, ?_⟩
  · refine ⟨by simpa using (List.mem_filter.mp hm).2, ?_, rfl⟩
    rw [heq]
    exact List.mem_map_of_mem _ hm
  · intro m _ p hp B now fetch prices ms tk c s t pr
    exact no_firstObs_of_prev_some B now (seedData m) p hp fetch prices ms tk
      c s t pr

/-- Active row (chat 1, chain solana, token T) with a persisted price. -/
def rowSolana : MonitorRow := ⟨1, 1, "solana", "T", 3, true, some 100,
  some 0, 0⟩

/-- Active row for the same chat and token on chain eth. -/
def rowEth : MonitorRow := ⟨2, 1, "eth", "T", 3, true, some 100, some 0, 0⟩

/-- Counterexample to C2 as stated: two active rows that differ only in
chain_id produce a single running task after the rebuild, because both map
to the job name monitor-1-T; the second loop iteration cancels the task the
first one started. -/
theorem rebuild_collapses_cross_chain :
    (rebuild [] (active_monitors [rowSolana, rowEth])).length = 1 ∧
    ¬ (rebuild [] (active_monitors [rowSolana, rowEth])).length = 2 := by
  decide

/-- Witness for the amended C2 at a single-row store. -/
theorem rebuild_from_store_witness :
    rebuild [] (active_monitors [rowSolana])
      = (active_monitors [rowSolana]).map seedJob :=
  (rebuild_from_store [rowSolana] (by decide)).1

/-- The in-memory task of the (1, solana, T) subscription. -/
def solanaJob : Job := ⟨jobName 1 ("T"), ⟨1, "T", "solana", 3, some 100,
  some 1⟩⟩

/-- C1 (code-bug demonstration): subscribing to the same token for the same
chat on chain eth cancels the running task of the distinct identity
(1, solana, T), because the job name omits the chain id: the queue ends
with a single job, carrying chain eth, and the solana task is gone. -/
theorem monitor_cancels_cross_chain_task :
    solanaJob.data.chain_id ≠ ("eth") ∧
    (monitor [("T"), ("5"), ("eth")] 1 [] [] 2 0 [solanaJob]).queue.length
      = 1 ∧
    solanaJob ∉ (monitor [("T"), ("5"), ("eth")] 1 [] [] 2 0
      [solanaJob]).queue ∧
    ∀ j ∈ (monitor [("T"), ("5"), ("eth")] 1 [] [] 2 0 [solanaJob]).queue,
      j.data.chain_id = ("eth") := by
  decide

/-- Counterexample to C6 as stated: the store holds no active row for the
identity (1, eth, T), yet `/stop T eth` cancels the in-memory task named
monitor-1-T (the solana one) and reports "stopped" rather than
"not active" with zero cancellations. -/
theorem stop_cross_chain_counterexample :
    (∀ r ∈ [rowSolana],
      ¬(r.is_active = true ∧ r.chat_id = 1 ∧ r.chain_id = ("eth") ∧
        r.token_address = ("T"))) ∧
    (stop [("T"), ("eth")] 1 [rowSolana] 0 [solanaJob]).2.2
      = StopReply.stopped ("T") ∧
    (stop [("T"), ("eth")] 1 [rowSolana] 0 [solanaJob]).2.1 = [] := by
  decide

lemma stop_fst (token : String) (rest : List String) (chat : ℤ)
    (monitors : List MonitorRow) (now : ℕ) (queue : List Job) :
    (stop (token :: rest) chat monitors now queue).1
      = (deactivate_monitor monitors chat (stopChain rest) token now).1 := by
  simp only [stop]
  split <;> rfl

/-- C6 (amended): `/stop token [chain]` always deactivates exactly the
matching active store rows (others unchanged, no row added or removed), but
its cancellation and its reply are keyed on the in-memory jobs named by
(chat_id, token_address) alone: with no such job it reports "not active"
and cancels nothing — even if an active row existed and was just
deactivated — and with such a job it removes all of them and reports
"stopped" — even if no active row for the given chain existed. -/
theorem stop_reports_job_presence (token : String) (rest : List String)
    (chat : ℤ) (monitors : List MonitorRow) (now : ℕ) (queue : List Job) :
    (stop (token :: rest) chat monitors now queue).1.length
      = monitors.length ∧
    (∀ r ∈ monitors,
      (matchesActive chat (stopChain rest) token r = true →
        { r with is_active := false, updated_at := now }
          ∈ (stop (token :: rest) chat monitors now queue).1) ∧
      (matchesActive chat (stopChain rest) token r = false →
        r ∈ (stop (token :: rest) chat monitors now queue).1)) ∧
    (get_jobs_by_name queue (jobName chat token) = [] →
      (stop (token :: rest) chat monitors now queue).2.1 = queue ∧
      (stop (token :: rest) chat monitors now queue).2.2
        = StopReply.notActive token) ∧
    (get_jobs_by_name queue (jobName chat token) ≠ [] →
      (stop (token :: rest) chat monitors now queue).2.2
        = StopReply.stopped token ∧
      ∀ j ∈ (stop (token :: rest) chat monitors now queue).2.1,
        j.name ≠ jobName chat token) := by
  refine ⟨?_, ?_, ?_, ?_⟩
  · rw [stop_fst, deactivate_monitor]
    exact List.length_map _ _
  · intro r hr
    rw [stop_fst, deactivate_monitor]
    constructor
    · intro hm
      have : { r with is_active := false, updated_at := now } =
          (fun x => if matchesActive chat (stopChain rest) token x then
            { x with is_active := false, updated_at := now } else x) r := by
        simp [hm]
      rw [this]
      exact List.mem_map_of_mem _ hr
    · intro hm
      have : r = (fun x =>
          if matchesActive chat (stopChain rest) token x then
            { x with is_active := false, updated_at := now } else x) r := by
        simp [hm]
      rw [this]
      exact List.mem_map_of_mem _ hr
  · intro hq
    simp only [stop, hq]
    exact ⟨rfl, rfl⟩
  · intro hq
    simp only [stop]
    rw [if_neg hq]
    refine ⟨rfl, fun j hj => ?_⟩
    have := (List.mem_filter.mp hj).2
    simpa using this

/-- Witness for the amended C6, exercising both reply branches at concrete
states. -/
theorem stop_reports_job_presence_witness :
    ((stop [("T"), ("eth")] 1 [rowSolana] 0 []).2.2
      = StopReply.notActive ("T")) ∧
    ((stop [("T")] 1 [rowSolana] 0 [solanaJob]).2.2
      = StopReply.stopped ("T")) :=
  ⟨((stop_reports_job_presence ("T") [("eth")] 1 [rowSolana] 0 []).2.2.1
      (by decide)).2,
   ((stop_reports_job_presence ("T") [] 1 [rowSolana] 0 [solanaJob]).2.2.2
      (by decide)).1⟩

/-- Counterexample to C7 as stated: calling chart with arguments T abc x —
where neither abc nor x parses as a duration — makes the second
`_parse_hours` call raise a ValueError that escapes the command handler,
instead of the error being recovered or reinterpreted. -/
theorem chart_value_error_escapes :
    chart [("T"), ("abc"), ("x")] = ChartOutcome.valueError ("x") := by
  decide

/-- C7 (amended): a malformed threshold argument to subscribe silently
falls back to 3.0 — the reply and the scheduled job both carry threshold 3
and no error is surfaced; a malformed duration argument to chart is
reinterpreted as the chain argument, with a present third argument then
parsed as the duration — and when that third argument is also malformed,
the ValueError escapes the chart handler. -/
theorem arg_error_fallbacks (token a1 : String) (rest : List String)
    (chat : ℤ) (mons : List MonitorRow) (toks : List TokenRow) (fid : ℤ)
    (now : ℕ) (q : List Job) (hbad : pyFloat? a1 = none) :
    (monitor (token :: a1 :: rest) chat mons toks fid now q).reply
      = MonitorReply.started token (argChain (a1 :: rest)) 3 ∧
    ((monitor (token :: a1 :: rest) chat mons toks fid now q).queue.getLast?
      ).map (fun j => j.data.pct_chng_threshold) = some 3 ∧
    (∀ t b1, parse_hours b1 = none →
      chart [t, b1] = ChartOutcome.ok 24 b1) ∧
    (∀ t b1 b2 h, parse_hours b1 = none → parse_hours b2 = some h →
      chart [t, b1, b2] = ChartOutcome.ok h b1) ∧
    (∀ t b1 b2, parse_hours b1 = none → parse_hours b2 = none →
      chart [t, b1, b2] = ChartOutcome.valueError b2) := by
  refine ⟨?_, ?_, fun t b1 h1 => by simp [chart, h1],
    fun t b1 b2 h h1 h2 => by simp [chart, h1, h2],
    fun t b1 b2 h1 h2 => by simp [chart, h1, h2]⟩
  · simp [monitor, argThreshold, hbad]
  · simp only [monitor, argThreshold, hbad, Option.getD_none]
    rw [List.getLast?_concat]
    rfl

/-- Witness for the amended C7 with a malformed threshold argument. -/
theorem arg_error_fallbacks_witness :
    (monitor [("T"), ("abc")] 1 [] [] 2 0 []).reply
      = MonitorReply.started ("T") ("solana") 3 :=
  (arg_error_fallbacks ("T") ("abc") [] 1 [] [] 2 0 [] (by decide)).1

end Dex
